import Mathlib

/-!
Verification of the ptdump trace-dump tool (src/ptdump/src/ptdump.c).

The development shallowly embeds the dump engine: the option flags, the
conditional `print` formatter, the column-width calculator, the per-packet
rendering pipeline, the synchronize/decode/resynchronize loop of `dump`,
and the argument-parsing loop of `main`.  The packet decoder, the last-IP
tracker and the payload formatter are external collaborators of the tool
(they live outside ptdump.c); they are modelled as an abstract capability
record `DumpEnv`, exactly as the code consumes them.  Machine integers are
modelled as `Nat`/`Int` with explicit reductions mod 2^32 where the C code
converts `int` to `unsigned`.
-/

namespace Ptdump

/-- Modelled from the spec: the decoder interface's error enumeration
(`enum pt_error_code` from intel-pt.h, which is not under src/).  Only
distinctness and the zero/nonzero split matter to ptdump.c. -/
def pte_ok : Int := 0

/-- Internal decoder error (see `pte_ok`). -/
def pte_internal : Int := 1

/-- Invalid-argument error (see `pte_ok`). -/
def pte_invalid : Int := 2

/-- Decoder-out-of-sync error (see `pte_ok`). -/
def pte_nosync : Int := 3

/-- Bad-opcode error (see `pte_ok`). -/
def pte_bad_opc : Int := 4

/-- Bad-packet error (see `pte_ok`). -/
def pte_bad_packet : Int := 5

/-- End-of-stream condition (see `pte_ok`). -/
def pte_eos : Int := 7

/-- Out-of-memory error (see `pte_ok`). -/
def pte_nomem : Int := 9

/-- No-IP condition of the last-IP tracker (see `pte_ok`). -/
def pte_noip : Int := 11

/-- Suppressed-IP condition of the last-IP tracker (see `pte_ok`). -/
def pte_ip_suppressed : Int := 12

/-- Modelled from the spec: the decoder interface's status convention
(intel-pt.h, not under src/): a nonnegative status means success, a
negative status `-e` carries the error code `e`. -/
def pt_errcode (status : Int) : Int :=
  if 0 ≤ status then pte_ok else -status

/-- `ptd_show_offset` from `enum pt_dump_flag` in ptdump.c. -/
def ptd_show_offset : Nat := 1 <<< 0

/-- `ptd_show_raw_bytes` from `enum pt_dump_flag`. -/
def ptd_show_raw_bytes : Nat := 1 <<< 1

/-- `ptd_show_last_ip` from `enum pt_dump_flag`. -/
def ptd_show_last_ip : Nat := 1 <<< 2

/-- `ptd_fixed_offset_width` from `enum pt_dump_flag`. -/
def ptd_fixed_offset_width : Nat := 1 <<< 3

/-- `ptd_use_cpu` from `enum pt_dump_flag`. -/
def ptd_use_cpu : Nat := 1 <<< 4

/-- `ptd_quiet` from `enum pt_dump_flag`. -/
def ptd_quiet : Nat := 1 <<< 5

/-- `ptd_no_pad` from `enum pt_dump_flag`. -/
def ptd_no_pad : Nat := 1 <<< 6

/-- Modelled from the spec: an opaque CPU identity value (`struct pt_cpu`
from pt_cpu.h, not under src/); ptdump.c only zeroes it or stores the
result of the external `pt_cpu_parse`. -/
structure pt_cpu where
  raw : Nat
deriving DecidableEq, Repr

/-- `struct ptdump_options` from ptdump.c: the flag bitmask (a C `uint32_t`)
and the optional explicit CPU identity. -/
structure ptdump_options where
  flags : Nat
  cpu : pt_cpu
deriving DecidableEq, Repr

/-- C conversion of a (possibly negative) `int` value to `unsigned`:
reduction mod 2^32. -/
def toUnsigned (i : Int) : Nat := (i % (2 ^ 32 : Int)).toNat

/-- One lowercase hexadecimal digit character, as produced by printf `%x`. -/
def hexDigitChar (d : Nat) : Char :=
  if d < 10 then Char.ofNat (48 + d) else Char.ofNat (87 + d)

/-- Fuel-driven accumulator loop producing the hex digits of `n` (most
significant first); models the digit production of printf `%x`. -/
def hexDigitsCore (fuel : Nat) (n : Nat) (acc : List Char) : List Char :=
  match fuel with
  | 0 => acc
  | f + 1 =>
    if n < 16 then hexDigitChar n :: acc
    else hexDigitsCore f (n / 16) (hexDigitChar (n % 16) :: acc)

/-- printf `%x`: lowercase hexadecimal rendering of `n`, no padding
(`n + 1` units of fuel always suffice, as the loop divides by 16). -/
def hexStr (n : Nat) : String :=
  String.mk (hexDigitsCore (n + 1) n [])

/-- printf zero padding: pad `s` on the left with `'0'` up to width `w`
(printf `%0*x` applied to an already-rendered hex string). -/
def zeroPad (w : Nat) (s : String) : String :=
  String.mk (List.replicate (w - s.length) '0') ++ s

/-- Space run of length `n` (printf `%*c` with a space argument). -/
def spaces (n : Nat) : String :=
  String.mk (List.replicate n ' ')

/-- The descending bit scan of `calc_col_offset_width` in ptdump.c: starting
at bit index `i` and stopping before index 0, return the first (highest) set
bit index of `v`, or 0 when no bit in `[1, i]` is set. -/
def hsb_scan (v : Nat) : Nat → Nat
  | 0 => 0
  | i + 1 => if v.testBit (i + 1) then i + 1 else hsb_scan v i

/-- `calc_col_offset_width` from ptdump.c: scan bits 63..1 of the highest
representable offset and return `1 + idx / 4`. -/
def calc_col_offset_width (highest_val : Nat) : Nat :=
  1 + hsb_scan highest_val 63 / 4

/-- The process-wide output model: the bytes written to stdout so far, the
diagnostic lines written to stderr so far, and the index of the next call to
the underlying `vprintf` write primitive (used to address the write-success
oracle). -/
structure Console where
  out : String
  err : List String
  k : Nat
deriving DecidableEq, Repr

/-- `print` from ptdump.c: returns 0 immediately in quiet mode; otherwise
performs the formatted write (the string `s` is the text the format produces;
whether the underlying `vprintf` succeeds is given by the oracle `wok` at the
current call index; a failed write emits nothing) and maps a nonpositive
`vprintf` result to `-pte_internal`. -/
def print (opts : ptdump_options) (wok : Nat → Bool) (c : Console)
    (s : String) : Int × Console :=
  if opts.flags &&& ptd_quiet ≠ 0 then (0, c)
  else
    let ret : Int := if wok c.k then (s.length : Int) else -1
    let c' : Console :=
      { c with out := c.out ++ (if wok c.k then s else ""), k := c.k + 1 }
    if ret ≤ 0 then (-pte_internal, c') else (ret, c')

/-- `print_col_separator` from ptdump.c: print two spaces, result ignored. -/
def print_col_separator (opts : ptdump_options) (wok : Nat → Bool)
    (c : Console) : Console :=
  (print opts wok c "  ").2

/-- `fillup_column` from ptdump.c: if the column already used at least its
target width do nothing, else print `col_width - actual_width` spaces
(printf `%*c` with a space), result ignored. -/
def fillup_column (opts : ptdump_options) (wok : Nat → Bool) (c : Console)
    (actual_width col_width : Nat) : Console :=
  if actual_width ≥ col_width then c
  else (print opts wok c (spaces (col_width - actual_width))).2

/-- `diag` from ptdump.c: write `[error: <msg>]` to stderr. -/
def diag (msg : String) (c : Console) : Console :=
  { c with err := c.err ++ ["[error: " ++ msg ++ "]"] }

/-- `diag_pos` from ptdump.c: write `[<hex pos>: error: <msg>]` to stderr. -/
def diag_pos (msg : String) (pos : Nat) (c : Console) : Console :=
  { c with err := c.err ++ ["[" ++ hexStr pos ++ ": error: " ++ msg ++ "]"] }

/-- `diag_err` from ptdump.c: write `[error: <msg> (<errstr>)]` to stderr;
`errstr` renders the error code (the external `pt_errstr`). -/
def diag_err (errstr : Int → String) (msg : String) (e : Int)
    (c : Console) : Console :=
  { c with err := c.err ++ ["[error: " ++ msg ++ " (" ++ errstr e ++ ")]"] }

/-- `diag_err_pos` from ptdump.c: write
`[<hex pos>: error: <msg> (<errstr>)]` to stderr. -/
def diag_err_pos (errstr : Int → String) (msg : String) (e : Int) (pos : Nat)
    (c : Console) : Console :=
  { c with err :=
      c.err ++ ["[" ++ hexStr pos ++ ": error: " ++ msg ++ " ("
        ++ errstr e ++ ")]"] }

/-- The packet type discriminant (`enum pt_packet_type` of the decoder
interface).  ptdump.c inspects only `ppt_pad` and the four address-carrying
variants; every other variant is opaque to it. -/
inductive pt_packet_type where
  | ppt_pad
  | ppt_tip
  | ppt_tip_pge
  | ppt_tip_pgd
  | ppt_fup
  | ppt_other : Nat → pt_packet_type
deriving DecidableEq, Repr

/-- `struct pt_packet` as consumed by ptdump.c: the type tag, the byte size
(a C `uint8_t`), and an opaque handle standing for `payload.ip` (only ever
forwarded to the external last-IP capability). -/
structure pt_packet where
  type : pt_packet_type
  size : Nat
  ip : Nat
deriving DecidableEq, Repr

/-- The external capabilities consumed by `dump`, parameterized over the
decoder state `δ` and the last-IP tracker state `ι`:
`pt_pkt_sync_forward`, `pt_pkt_get_offset` (status and offset),
`pt_pkt_next` (status, decoded packet, advanced decoder),
`pt_pkt_get_pos` (byte value at the current position plus an index),
`pt_last_ip_init`/`pt_last_ip_update_ip`/`pt_last_ip_query`,
`pt_print_packet_type_str`, `pt_print_fill_payload_str` (status and the
filled buffer), `pt_errstr`, and the success oracle of the `vprintf`
write primitive. -/
structure DumpEnv (δ ι : Type) where
  sync_forward : δ → Int × δ
  get_offset : δ → Int × Nat
  pkt_next : δ → Int × pt_packet × δ
  get_pos : δ → Nat → Nat
  ip_init : ι
  ip_update : ι → Nat → Int × ι
  ip_query : ι → Int × Nat
  packet_type_str : pt_packet → String
  fill_payload_str : pt_packet → Int × String
  errstr : Int → String
  write_ok : Nat → Bool

/-- `col_packettype_width` constant in `dump`. -/
def col_packettype_width : Nat := 9

/-- `col_payload_width` constant in `dump`. -/
def col_payload_width : Nat := 47

/-- `col_offset_width_fixed` constant in `dump`. -/
def col_offset_width_fixed : Nat := 16

/-- The `col_offset_width` computation in `dump`: the fixed width 16 when
`ptd_fixed_offset_width` is set, else `calc_col_offset_width` of the buffer
size `end - begin`. -/
def col_offset_width (opts : ptdump_options) (size : Nat) : Nat :=
  if opts.flags &&& ptd_fixed_offset_width ≠ 0 then col_offset_width_fixed
  else calc_col_offset_width size

/-- The offset-column block of `dump` (the `ptd_show_offset` branch):
either a resync request `(errcode, console)` or the updated console and
`col_offset_width_used`.  When the option is off the incoming used width is
passed through untouched, as the C variable keeps its prior value. -/
def render_offset (opts : ptdump_options) (wok : Nat → Bool) (c : Console)
    (pos colw wOff : Nat) : (Int × Console) ⊕ (Console × Nat) :=
  if opts.flags &&& ptd_show_offset ≠ 0 then
    let rc := print opts wok c (zeroPad colw (hexStr pos))
    if rc.1 < 0 then
      .inl (-pte_internal, diag_pos "cannot print offset" pos rc.2)
    else
      let wOff' := toUnsigned rc.1
      let c1 := fillup_column opts wok rc.2 wOff' colw
      let c2 := print_col_separator opts wok c1
      .inr (c2, wOff')
  else .inr (c, wOff)

/-- The last-IP block of `dump` (the `ptd_show_last_ip` branch, including
the packet-type switch): either a resync request `(errcode, console)` or
the updated console, tracker state and `col_payload_width_used`. -/
def render_last_ip {δ ι : Type} (opts : ptdump_options) (env : DumpEnv δ ι)
    (c : Console) (last_ip : ι) (pkt : pt_packet) (pos wPayl : Nat) :
    (Int × Console) ⊕ (Console × ι × Nat) :=
  if opts.flags &&& ptd_show_last_ip ≠ 0 then
    match pkt.type with
    | .ppt_tip | .ppt_tip_pge | .ppt_tip_pgd | .ppt_fup =>
      let ru := env.ip_update last_ip pkt.ip
      if ru.1 = -pte_invalid then
        .inl (-pte_internal,
          diag_err_pos env.errstr "failed to update last-IP" pte_invalid pos c)
      else if ru.1 = -pte_bad_packet then
        .inl (-pte_bad_packet,
          diag_err_pos env.errstr "failed to update last-IP" pte_bad_packet
            pos c)
      else if ru.1 = -pte_noip then .inr (c, ru.2, wPayl)
      else
        let rq := env.ip_query ru.2
        if rq.1 = -pte_invalid then
          .inl (-pte_internal,
            diag_err_pos env.errstr "cannot query last-IP" pte_invalid pos c)
        else if rq.1 = -pte_noip then .inr (c, ru.2, wPayl)
        else
          let rp :=
            if rq.1 = -pte_ip_suppressed then
              print opts env.write_ok c ", ip=<suppressed>"
            else if rq.1 = 0 then
              print opts env.write_ok c (", ip=0x" ++ zeroPad 16 (hexStr rq.2))
            else (rq.1, c)
          if rp.1 < 0 then
            .inl (-pte_internal, diag_pos "cannot print last-IP" pos rp.2)
          else .inr (rp.2, ru.2, (wPayl + toUnsigned rp.1) % 2 ^ 32)
    | _ => .inr (c, last_ip, wPayl)
  else .inr (c, last_ip, wPayl)

/-- The byte loop of the raw-bytes block of `dump`: for each index below
the packet size print the byte at the decoder's current position as `%02x`
(a `uint8_t`, hence the value is reduced mod 256), followed by a single
space except after the last byte.  All print results are ignored, as in the
source.  (The C loop index is a `uint8_t`; the packet size field is also a
`uint8_t`, so iteration over `List.range size` coincides with it.) -/
def render_raw_step {δ ι : Type} (opts : ptdump_options) (env : DumpEnv δ ι)
    (d : δ) (size : Nat) (c : Console) (idx : Nat) : Console :=
  let u := env.get_pos d idx % 256
  let c1 := (print opts env.write_ok c (zeroPad 2 (hexStr u))).2
  if idx ≠ size - 1 then (print opts env.write_ok c1 " ").2 else c1

/-- The iteration of the raw-byte loop over the byte indices. -/
def render_raw_loop {δ ι : Type} (opts : ptdump_options) (env : DumpEnv δ ι)
    (d : δ) (size : Nat) (c : Console) : Console :=
  (List.range size).foldl (render_raw_step opts env d size) c

/-- The bracketed hex dump of the raw-bytes block of `dump`: `[`, the byte
loop, `]`; print results ignored. -/
def render_raw_brackets {δ ι : Type} (opts : ptdump_options)
    (env : DumpEnv δ ι) (d : δ) (size : Nat) (c : Console) : Console :=
  let c1 := (print opts env.write_ok c "[").2
  let c2 := render_raw_loop opts env d size c1
  (print opts env.write_ok c2 "]").2

/-- The raw-bytes block of `dump` (the `ptd_show_raw_bytes` branch): if no
payload text was printed, first pad the type column and emit a separator;
then pad the payload column, emit a separator, and print the bracketed hex
dump. -/
def render_raw {δ ι : Type} (opts : ptdump_options) (env : DumpEnv δ ι)
    (d : δ) (c : Console) (wType wPayl size : Nat) : Console :=
  if opts.flags &&& ptd_show_raw_bytes ≠ 0 then
    let c1 :=
      if wPayl = 0 then
        print_col_separator opts env.write_ok
          (fillup_column opts env.write_ok c wType col_packettype_width)
      else c
    let c2 :=
      print_col_separator opts env.write_ok
        (fillup_column opts env.write_ok c1 wPayl col_payload_width)
    render_raw_brackets opts env d size c2
  else c

/-- Outcome of rendering one packet: either a `goto sync` with the error
code the engine carries forward, or the updated console, tracker state and
the three column used widths. -/
inductive RenderResult (ι : Type) where
  | resync (errcode : Int) (c : Console)
  | ok (c : Console) (last_ip : ι) (wOff wType wPayl : Nat)
deriving DecidableEq, Repr

/-- The rendering pipeline of `dump` after the offset column (ptdump.c
lines 417-526): packet-type column (its print result checked), payload
column (the fill result checked, the print result assigned to the used
width unchecked — a nonpositive result is converted to `unsigned`), last-IP
enrichment, raw bytes, and the terminating newline (result ignored).
`wOff` is the `col_offset_width_used` value established by the offset
stage, carried into the final outcome. -/
def render_rest {δ ι : Type} (opts : ptdump_options) (env : DumpEnv δ ι)
    (d : δ) (last_ip : ι) (pkt : pt_packet) (pos : Nat) (c : Console)
    (wOff : Nat) : RenderResult ι :=
  let rt := print opts env.write_ok c (env.packet_type_str pkt)
  if rt.1 < 0 then
    .resync (-pte_internal) (diag_pos "cannot print packet type" pos rt.2)
  else
    let wType' := toUnsigned rt.1
    let rf := env.fill_payload_str pkt
    if rf.1 < 0 then
      .resync (-pte_internal)
        (diag_pos "cannot print packet payload" pos rt.2)
    else
      let c1 :=
        if 0 < rf.1 then
          print_col_separator opts env.write_ok
            (fillup_column opts env.write_ok rt.2 wType'
              col_packettype_width)
        else rt.2
      let rp := print opts env.write_ok c1 rf.2
      let wPayl' := toUnsigned rp.1
      match render_last_ip opts env rp.2 last_ip pkt pos wPayl' with
      | .inl e => .resync e.1 e.2
      | .inr cl =>
        let c2 := render_raw opts env d cl.1 wType' cl.2.2 pkt.size
        let c3 := (print opts env.write_ok c2 "\n").2
        .ok c3 cl.2.1 wOff wType' cl.2.2

/-- The rendering pipeline of `dump` for one valid packet (ptdump.c lines
401-526): the offset column stage followed by `render_rest`.  Incoming
used widths model the C variables that survive from the previous
iteration; each is (re)assigned before every use within the iteration,
exactly as in the source. -/
def render_packet {δ ι : Type} (opts : ptdump_options) (env : DumpEnv δ ι)
    (c : Console) (d : δ) (last_ip : ι) (pkt : pt_packet)
    (pos colw wOff wType wPayl : Nat) : RenderResult ι :=
  match render_offset opts env.write_ok c pos colw wOff with
  | .inl e => .resync e.1 e.2
  | .inr co => render_rest opts env d last_ip pkt pos co.1 co.2

/-- The control state of the dump engine: synchronizing (at the `sync`
label), decoding (inside the `for (;;)` loop), or done (at the `out`
label). -/
inductive Phase where
  | sync
  | decode
  | done
deriving DecidableEq, Repr

/-- The complete loop state of `dump`: control phase, decoder state,
last-IP tracker, the `errcode` variable, the console, the three used-width
variables, and a ghost flag recording whether the `out` label was reached
through the end-of-stream branch (`pt_errcode(ret) == pte_eos`). -/
structure DumpState (δ ι : Type) where
  phase : Phase
  dec : δ
  last_ip : ι
  errcode : Int
  c : Console
  wOff : Nat
  wType : Nat
  wPayl : Nat
  eosReached : Bool
deriving Repr

/-- One transition of the dump engine.  In phase `sync` it runs
`pt_pkt_sync_forward` and either reports a fatal synchronization error
(best-effort offset fetch for diagnostics) or resets the last-IP tracker
and enters the decoding loop.  In phase `decode` it runs one iteration of
the `for (;;)` loop of `dump`: fetch the offset (failure is fatal), fetch
the next packet (end-of-stream terminates with the `errcode` left by the
offset fetch; any other error and a zero-size packet are reported and jump
back to `sync`), skip PAD packets when requested, and otherwise render the
packet. -/
def dump_step {δ ι : Type} (opts : ptdump_options) (env : DumpEnv δ ι)
    (colw : Nat) (st : DumpState δ ι) : DumpState δ ι :=
  match st.phase with
  | .done => st
  | .sync =>
    let rs := env.sync_forward st.dec
    if rs.1 < 0 then
      let ro := env.get_offset rs.2
      let c :=
        if ro.1 < 0 then
          diag_err env.errstr "could not determine offset" (pt_errcode ro.1)
            (diag_err env.errstr "sync error" (pt_errcode rs.1) st.c)
        else
          diag_err_pos env.errstr "sync error" (pt_errcode rs.1) ro.2 st.c
      { st with phase := .done, dec := rs.2, errcode := rs.1, c := c }
    else
      { st with
        phase := .decode, dec := rs.2, errcode := rs.1,
        last_ip := env.ip_init }
  | .decode =>
    let rg := env.get_offset st.dec
    if rg.1 < 0 then
      { st with
        phase := .done, errcode := rg.1,
        c := diag_err env.errstr "determining offset failed"
          (pt_errcode rg.1) st.c }
    else
      let pos := rg.2
      let rn := env.pkt_next st.dec
      let pkt := rn.2.1
      if pt_errcode rn.1 = pte_eos then
        { st with
          phase := .done, dec := rn.2.2, errcode := rg.1,
          eosReached := true }
      else if pt_errcode rn.1 ≠ pte_ok then
        { st with
          phase := .sync, dec := rn.2.2, errcode := rn.1,
          c := diag_err_pos env.errstr "packet decoding failed"
            (pt_errcode rn.1) pos st.c }
      else if pkt.size = 0 then
        { st with
          phase := .sync, dec := rn.2.2,
          errcode := -pte_bad_packet,
          c := diag_pos
            "packet decoding failed, packet size is reported to be 0"
            pos st.c }
      else if pkt.type = .ppt_pad ∧ opts.flags &&& ptd_no_pad ≠ 0 then
        { st with dec := rn.2.2, errcode := rg.1 }
      else
        match render_packet opts env st.c rn.2.2 st.last_ip pkt pos colw
            st.wOff st.wType st.wPayl with
        | .resync e c =>
          { st with phase := .sync, dec := rn.2.2, errcode := e, c := c }
        | .ok c ip wO wT wP =>
          { st with
            dec := rn.2.2, last_ip := ip, errcode := rg.1, c := c,
            wOff := wO, wType := wT, wPayl := wP }

/-- Iterate `dump_step` a given number of times (fuel-indexed closure of
the engine's small-step semantics; phase `done` is absorbing). -/
def dump_run {δ ι : Type} (opts : ptdump_options) (env : DumpEnv δ ι)
    (colw : Nat) : Nat → DumpState δ ι → DumpState δ ι
  | 0, st => st
  | n + 1, st => dump_run opts env colw n (dump_step opts env colw st)

/-- The state of `dump` on entry to the `sync` label: phase `sync`,
`errcode = 0`, the used-width variables zeroed (ptdump.c lines 316-318,
328), empty console.  The C `last_ip` struct is uninitialized until the
first successful synchronization; its indeterminate initial contents are
seeded here with `ip_init` as a placeholder. -/
def init_state {δ ι : Type} (env : DumpEnv δ ι) (d0 : δ) : DumpState δ ι :=
  { phase := .sync, dec := d0, last_ip := env.ip_init, errcode := 0,
    c := { out := "", err := [], k := 0 },
    wOff := 0, wType := 0, wPayl := 0, eosReached := false }

/-- `dump` from ptdump.c (from the `sync` label on; decoder allocation is
modelled as succeeding): compute the offset-column width from the options
and the buffer size, run the engine, and — when the run reaches the `out`
label within the given fuel — return the final state. -/
def dump {δ ι : Type} (opts : ptdump_options) (env : DumpEnv δ ι) (d0 : δ)
    (size fuel : Nat) : Option (DumpState δ ι) :=
  let fin := dump_run opts env (col_offset_width opts size) fuel
    (init_state env d0)
  if fin.phase = .done then some fin else none

/-- The tail of `main` (ptdump.c lines 620-622): the process exit status of
a completed dump run is the negated engine completion code. -/
def dump_exit_status {δ ι : Type} (opts : ptdump_options)
    (env : DumpEnv δ ι) (d0 : δ) (size fuel : Nat) : Option Int :=
  (dump opts env d0 size fuel).map (fun st => -st.errcode)

/-- Outcome of the argument-parsing loop of `main`: the usage error, help,
version, the missing-file error, the bad-cpu error (`return 1`), a
successful parse carrying the options and the trace-file name, or an
out-of-range access into the argument array at the recorded index. -/
inductive ParseResult where
  | usage
  | help
  | version
  | noFile
  | badCpu
  | run (opts : ptdump_options) (file : String)
  | oob (i : Nat)
deriving DecidableEq, Repr

/-- The options `main` constructs before parsing (ptdump.c lines 542-550):
zeroed, then `ptd_show_offset` and `ptd_use_cpu` set, cpu zeroed. -/
def main_default_options : ptdump_options :=
  { flags := ptd_show_offset ||| ptd_use_cpu, cpu := { raw := 0 } }

/-- Clearing a flag bit as the C `flags &= ~bit` does on a `uint32_t`. -/
def clear_flag (flags bit : Nat) : Nat :=
  flags &&& ((2 ^ 32 - 1) ^^^ bit)

/-- The argument-parsing loop of `main` (ptdump.c lines 553-608), fuel
indexed (the wrapper `parse_args` supplies sufficient fuel).  `cp` is the
external `pt_cpu_parse` (status and parsed value).  A non-dash argument
names the trace file and must be last, else usage error; `--cpu` reads
`argv[++idx]` — when `--cpu` is the last argument that index is past the
end of the argument array, which a total embedding reports as `oob`. -/
def parse_loop (cp : String → Int × pt_cpu) (argv : List String) :
    Nat → Nat → ptdump_options → ParseResult
  | 0, _, _ => .noFile
  | fuel + 1, idx, opts =>
    if idx < argv.length then
      let a := argv.getD idx ""
      if a.take 1 ≠ "-" then
        if idx < argv.length - 1 then .usage else .run opts a
      else if a = "-h" then .help
      else if a = "--help" then .help
      else if a = "--version" then .version
      else if a = "--quiet" then
        parse_loop cp argv fuel (idx + 1)
          { opts with flags := opts.flags ||| ptd_quiet }
      else if a = "--no-pad" then
        parse_loop cp argv fuel (idx + 1)
          { opts with flags := opts.flags ||| ptd_no_pad }
      else if a = "--no-offset" then
        parse_loop cp argv fuel (idx + 1)
          { opts with flags := clear_flag opts.flags ptd_show_offset }
      else if a = "--raw" then
        parse_loop cp argv fuel (idx + 1)
          { opts with flags := opts.flags ||| ptd_show_raw_bytes }
      else if a = "--lastip" then
        parse_loop cp argv fuel (idx + 1)
          { opts with flags := opts.flags ||| ptd_show_last_ip }
      else if a = "--fixed-offset-width" then
        parse_loop cp argv fuel (idx + 1)
          { opts with flags := opts.flags ||| ptd_fixed_offset_width }
      else if a = "--cpu" then
        if idx + 1 < argv.length then
          let arg := argv.getD (idx + 1) ""
          if arg = "auto" then
            parse_loop cp argv fuel (idx + 2)
              { opts with flags := clear_flag opts.flags ptd_use_cpu }
          else
            let opts := { opts with flags := opts.flags ||| ptd_use_cpu }
            if arg = "none" then
              parse_loop cp argv fuel (idx + 2)
                { opts with cpu := { raw := 0 } }
            else
              let rc := cp arg
              if rc.1 < 0 then .badCpu
              else parse_loop cp argv fuel (idx + 2)
                { opts with cpu := rc.2 }
        else .oob (idx + 1)
      else .usage
    else .noFile

/-- The argument parsing of `main`: run the loop from index 1 on the
default options, with fuel covering every argument. -/
def parse_args (cp : String → Int × pt_cpu) (argv : List String) :
    ParseResult :=
  parse_loop cp argv (argv.length + 1) 1 main_default_options

/-- Projection used to state console facts uniformly over both outcomes of
a block: the stdout contents of the console carried by either side. -/
def lip_out {ι : Type} : (Int × Console) ⊕ (Console × ι × Nat) → String
  | .inl e => e.2.out
  | .inr r => r.1.out

/-- The stdout contents carried by a rendering outcome. -/
def rr_out {ι : Type} : RenderResult ι → String
  | .resync _ c => c.out
  | .ok c _ _ _ _ => c.out

/-- Specification-side shape used to state C7: the given strings joined by
single spaces, with no trailing separator. -/
def sep_joined : List String → String
  | [] => ""
  | [s] => s
  | s :: s2 :: ss => s ++ " " ++ sep_joined (s2 :: ss)

/-- Proof-side companion of `sep_joined`: every element followed by one
space (the shape of the raw-byte loop's output before its last element). -/
def glue_sp : List String → String
  | [] => ""
  | s :: ss => s ++ " " ++ glue_sp ss

/-- The two-digit lowercase hex group printed for one raw byte. -/
def raw_group {δ ι : Type} (env : DumpEnv δ ι) (d : δ) (i : Nat) : String :=
  zeroPad 2 (hexStr (env.get_pos d i % 256))

/-- The completion discipline of the engine: at the `out` label the carried
`errcode` is zero exactly when the end-of-stream branch was taken, and the
ghost flag is unset while the engine is still running. -/
def completion_invariant {δ ι : Type} (st : DumpState δ ι) : Prop :=
  (st.phase = .done → (st.errcode = 0 ↔ st.eosReached = true)) ∧
    (st.phase ≠ .done → st.eosReached = false)

/-- A concrete environment whose decoder reports end-of-stream at once. -/
def env_eos : DumpEnv Nat Nat :=
  { sync_forward := fun d => (0, d), get_offset := fun d => (0, d),
    pkt_next := fun d => (-pte_eos,
      { type := .ppt_pad, size := 1, ip := 0 }, d),
    get_pos := fun _ _ => 0, ip_init := 0,
    ip_update := fun i _ => (0, i), ip_query := fun _ => (0, 0),
    packet_type_str := fun _ => "pad",
    fill_payload_str := fun _ => (0, ""),
    errstr := fun _ => "err", write_ok := fun _ => true }

/-- The components of a rendering outcome apart from the returned
`col_offset_width_used` slot (that slot merely carries the C variable's
prior value through when the offset column is disabled). -/
def rr_obs {ι : Type} :
    RenderResult ι → (Int × Console) ⊕ (Console × ι × Nat × Nat)
  | .resync e c => .inl (e, c)
  | .ok c ip _ wT wP => .inr (c, ip, wT, wP)

/-- A concrete environment yielding one-byte packets at positions 0 and 1
and end-of-stream afterwards. -/
def env_two : DumpEnv Nat Nat :=
  { sync_forward := fun d => (0, d), get_offset := fun d => (0, d),
    pkt_next := fun d =>
      if d < 2 then (0, { type := .ppt_other 0, size := 1, ip := 0 }, d + 1)
      else (-pte_eos, { type := .ppt_other 0, size := 1, ip := 0 }, d),
    get_pos := fun _ _ => 0, ip_init := 0,
    ip_update := fun i _ => (0, i), ip_query := fun _ => (0, 0),
    packet_type_str := fun _ => "pkt",
    fill_payload_str := fun _ => (0, ""),
    errstr := fun _ => "err", write_ok := fun _ => true }

/-- Options with every display flag clear (as after `--no-offset`). -/
def opts_plain : ptdump_options := { flags := 0, cpu := { raw := 0 } }

/-- Options with only raw-byte display set (offset column disabled). -/
def opts_raw : ptdump_options :=
  { flags := ptd_show_raw_bytes, cpu := { raw := 0 } }

/-- A concrete environment whose write primitive succeeds only on the very
first call, so every print after the packet-type column fails. -/
def env_rawfail : DumpEnv Nat Nat :=
  { sync_forward := fun d => (0, d), get_offset := fun d => (0, d),
    pkt_next := fun d =>
      (0, { type := .ppt_other 0, size := 2, ip := 0 }, d + 1),
    get_pos := fun _ i => i, ip_init := 0,
    ip_update := fun i _ => (0, i), ip_query := fun _ => (0, 0),
    packet_type_str := fun _ => "pkt",
    fill_payload_str := fun _ => (0, ""),
    errstr := fun _ => "err", write_ok := fun k => k == 0 }

/-- Options with only last-IP display set. -/
def opts_lastip : ptdump_options :=
  { flags := ptd_show_last_ip, cpu := { raw := 0 } }

/-- A concrete decoding-phase state whose console write counter is 1. -/
def st_k1 : DumpState Nat Nat :=
  { phase := .decode, dec := 0, last_ip := 0, errcode := 0,
    c := { out := "", err := [], k := 1 }, wOff := 0, wType := 0,
    wPayl := 0, eosReached := false }

theorem hsb_scan_eq_log2 (k : Nat) :
    ∀ v : Nat, v < 2 ^ (k + 1) → hsb_scan v k = Nat.log 2 v := by
  induction k with
  | zero =>
    intro v hv
    interval_cases v
    · simp [hsb_scan, Nat.log_zero_right]
    · simp [hsb_scan, Nat.log_of_lt]
  | succ k ih =>
    intro v hv
    by_cases hb : v.testBit (k + 1)
    · have hge : 2 ^ (k + 1) ≤ v := Nat.testBit_implies_ge hb
      have : Nat.log 2 v = k + 1 := Nat.log_eq_of_pow_le_of_lt_pow hge hv
      simp [hsb_scan, hb, this]
    · have hlt : v < 2 ^ (k + 1) := by
        by_contra hge
        push_neg at hge
        have hdiv : v / 2 ^ (k + 1) = 1 := by
          refine Nat.div_eq_of_lt_le (by omega) ?_
          have : (2 : Nat) * 2 ^ (k + 1) = 2 ^ (k + 1 + 1) := by ring
          omega
        have : v.testBit (k + 1) = true := by
          rw [Nat.testBit_to_div_mod]
          simp [hdiv]
        exact hb this
      simp only [hsb_scan, hb, if_false]
      exact ih v hlt

/-- C3: for every buffer size `S` representable as a `uint64_t`, the
column-width calculator returns exactly `1 + floor(log2 (max S 1) / 4)`,
and the result is at least 1 (including for `S = 0`). -/
theorem calc_col_offset_width_spec (S : Nat) (hS : S < 2 ^ 64) :
    calc_col_offset_width S = 1 + Nat.log2 (max S 1) / 4 ∧
      1 ≤ calc_col_offset_width S := by
  constructor
  · have h63 : hsb_scan S 63 = Nat.log 2 S := hsb_scan_eq_log2 63 S hS
    have hmax : Nat.log 2 (max S 1) = Nat.log 2 S := by
      rcases Nat.eq_zero_or_pos S with h0 | h1
      · subst h0
        simp [Nat.log_zero_right, Nat.log_of_lt]
      · rw [max_eq_left h1]
    rw [calc_col_offset_width, h63, Nat.log2_eq_log_two, hmax]
  · exact Nat.le_add_right 1 _

/-- Witness for C3 at the concrete buffer size 4096. -/
theorem calc_col_offset_width_spec_witness :
    4096 < 2 ^ 64 ∧
      (calc_col_offset_width 4096 = 1 + Nat.log2 (max 4096 1) / 4 ∧
        1 ≤ calc_col_offset_width 4096) :=
  ⟨by norm_num, calc_col_offset_width_spec 4096 (by norm_num)⟩

/-- C10: when `--cpu` is the final command-line argument, the parsing loop
of `main` increments the argument index past the last provided argument;
under the total embedding this accesses the argument array out of range at
index 2 (`argv` holds only indices 0 and 1) instead of rejecting the
command line as a usage error. -/
theorem cpu_final_arg_oob (cp : String → Int × pt_cpu) :
    parse_args cp ["ptdump", "--cpu"] = .oob 2 := rfl

/-- C4: in the decoding phase, a packet whose reported size is zero is
treated as a decode error: the engine reports it at the current offset on
stderr, sets `errcode` to `-pte_bad_packet` and transitions back to the
synchronizing phase, rendering nothing. -/
theorem zero_size_packet_resync {δ ι : Type} (opts : ptdump_options)
    (env : DumpEnv δ ι) (colw : Nat) (st : DumpState δ ι)
    (hphase : st.phase = .decode) (g : Int) (pos : Nat)
    (hg : env.get_offset st.dec = (g, pos)) (hgpos : 0 ≤ g)
    (ret : Int) (pkt : pt_packet) (d : δ)
    (hn : env.pkt_next st.dec = (ret, pkt, d)) (hret : 0 ≤ ret)
    (hsz : pkt.size = 0) :
    dump_step opts env colw st =
      { st with
        phase := .sync, dec := d, errcode := -pte_bad_packet,
        c := diag_pos
          "packet decoding failed, packet size is reported to be 0"
          pos st.c } := by
  have h1 : ¬ g < 0 := not_lt.mpr hgpos
  have h2 : pt_errcode ret = pte_ok := by
    simp [pt_errcode, hret]
  have h3 : ¬ pt_errcode ret = pte_eos := by
    rw [h2]
    simp [pte_ok, pte_eos]
  simp [dump_step, hphase, hg, hn, h1, h2, h3, hsz, pte_ok, pte_eos]

/-- Witness for C4 on a concrete one-packet environment. -/
theorem zero_size_packet_resync_witness :
    dump_step main_default_options
      { sync_forward := fun d => (0, d), get_offset := fun d => (0, d),
        pkt_next := fun d => (0, { type := .ppt_pad, size := 0, ip := 0 },
          d + 1),
        get_pos := fun _ _ => 0, ip_init := (0 : Nat),
        ip_update := fun i _ => (0, i), ip_query := fun _ => (0, 0),
        packet_type_str := fun _ => "pad",
        fill_payload_str := fun _ => (0, ""),
        errstr := fun _ => "err", write_ok := fun _ => true }
      1
      { phase := .decode, dec := (5 : Nat), last_ip := 0, errcode := 0,
        c := { out := "", err := [], k := 0 },
        wOff := 0, wType := 0, wPayl := 0, eosReached := false } =
      { phase := .sync, dec := 6, last_ip := 0,
        errcode := -pte_bad_packet,
        c := diag_pos
          "packet decoding failed, packet size is reported to be 0"
          5 { out := "", err := [], k := 0 },
        wOff := 0, wType := 0, wPayl := 0, eosReached := false } := by
  exact zero_size_packet_resync _ _ _ _ rfl 0 5 rfl (by decide) 0
    { type := .ppt_pad, size := 0, ip := 0 } 6 rfl (by decide) rfl

/-- C6: whenever the engine leaves the synchronizing phase for the decoding
phase (i.e. on every successful synchronization, initial or after a
per-packet error), the last-IP tracker state is reset to its initial form
before any packet is decoded. -/
theorem sync_resets_last_ip {δ ι : Type} (opts : ptdump_options)
    (env : DumpEnv δ ι) (colw : Nat) (st : DumpState δ ι)
    (hphase : st.phase = .sync)
    (hdec : (dump_step opts env colw st).phase = .decode) :
    (dump_step opts env colw st).last_ip = env.ip_init := by
  simp only [dump_step, hphase] at hdec ⊢
  by_cases h : (env.sync_forward st.dec).1 < 0
  · simp [h] at hdec
  · simp [h]

/-- Witness for C6 on a concrete environment in which synchronization
succeeds. -/
theorem sync_resets_last_ip_witness :
    (dump_step main_default_options
      { sync_forward := fun d => (0, d), get_offset := fun d => (0, d),
        pkt_next := fun d => (-pte_eos,
          { type := .ppt_pad, size := 1, ip := 0 }, d),
        get_pos := fun _ _ => 0, ip_init := (7 : Nat),
        ip_update := fun i _ => (0, i), ip_query := fun _ => (0, 0),
        packet_type_str := fun _ => "pad",
        fill_payload_str := fun _ => (0, ""),
        errstr := fun _ => "err", write_ok := fun _ => true }
      1
      { phase := .sync, dec := (0 : Nat), last_ip := 0, errcode := 0,
        c := { out := "", err := [], k := 0 },
        wOff := 0, wType := 0, wPayl := 0, eosReached := false }).phase
        = .decode ∧
    (dump_step main_default_options
      { sync_forward := fun d => (0, d), get_offset := fun d => (0, d),
        pkt_next := fun d => (-pte_eos,
          { type := .ppt_pad, size := 1, ip := 0 }, d),
        get_pos := fun _ _ => 0, ip_init := (7 : Nat),
        ip_update := fun i _ => (0, i), ip_query := fun _ => (0, 0),
        packet_type_str := fun _ => "pad",
        fill_payload_str := fun _ => (0, ""),
        errstr := fun _ => "err", write_ok := fun _ => true }
      1
      { phase := .sync, dec := (0 : Nat), last_ip := 0, errcode := 0,
        c := { out := "", err := [], k := 0 },
        wOff := 0, wType := 0, wPayl := 0, eosReached := false }).last_ip
        = 7 := by
  refine ⟨by decide, ?_⟩
  exact sync_resets_last_ip _ _ _ _ rfl (by decide)

theorem dump_step_completion {δ ι : Type} (opts : ptdump_options)
    (env : DumpEnv δ ι) (colw : Nat) (st : DumpState δ ι)
    (hget : ∀ d, (env.get_offset d).1 ≤ 0)
    (h : completion_invariant st) :
    completion_invariant (dump_step opts env colw st) := by
  obtain ⟨h1, h2⟩ := h
  cases hp : st.phase with
  | done =>
    simp only [dump_step, hp]
    exact ⟨fun _ => h1 hp, fun hnd => absurd hp hnd⟩
  | sync =>
    have he : st.eosReached = false := h2 (by simp [hp])
    simp only [dump_step, hp]
    by_cases hs : (env.sync_forward st.dec).1 < 0
    · rw [if_pos hs]
      refine ⟨fun _ => ⟨fun h0 => ?_, fun hb => ?_⟩, fun _ => he⟩
      · exact absurd (show (env.sync_forward st.dec).1 = 0 from h0)
          (by omega)
      · exact absurd (show st.eosReached = true from hb) (by simp [he])
    · rw [if_neg hs]
      exact ⟨fun hd => by simp at hd, fun _ => he⟩
  | decode =>
    have he : st.eosReached = false := h2 (by simp [hp])
    simp only [dump_step, hp]
    by_cases hg : (env.get_offset st.dec).1 < 0
    · rw [if_pos hg]
      refine ⟨fun _ => ⟨fun h0 => ?_, fun hb => ?_⟩, fun _ => he⟩
      · exact absurd (show (env.get_offset st.dec).1 = 0 from h0)
          (by omega)
      · exact absurd (show st.eosReached = true from hb) (by simp [he])
    · rw [if_neg hg]
      by_cases heos : pt_errcode (env.pkt_next st.dec).1 = pte_eos
      · rw [if_pos heos]
        have hz : (env.get_offset st.dec).1 = 0 := by
          have := hget st.dec
          omega
        refine ⟨fun _ => ⟨fun _ => rfl, fun _ => ?_⟩, fun hnd => ?_⟩
        · exact hz
        · exact absurd rfl hnd
      · rw [if_neg heos]
        by_cases hok : pt_errcode (env.pkt_next st.dec).1 ≠ pte_ok
        · rw [if_pos hok]
          exact ⟨fun hd => by simp at hd, fun _ => he⟩
        · rw [if_neg hok]
          by_cases hsz : (env.pkt_next st.dec).2.1.size = 0
          · rw [if_pos hsz]
            exact ⟨fun hd => by simp at hd, fun _ => he⟩
          · rw [if_neg hsz]
            by_cases hpad : (env.pkt_next st.dec).2.1.type = .ppt_pad ∧
                opts.flags &&& ptd_no_pad ≠ 0
            · rw [if_pos hpad]
              exact ⟨fun hd => by simp at hd, fun _ => he⟩
            · rw [if_neg hpad]
              split
              · exact ⟨fun hd => by simp at hd, fun _ => he⟩
              · exact ⟨fun hd => by simp at hd, fun _ => he⟩

theorem dump_run_completion {δ ι : Type} (opts : ptdump_options)
    (env : DumpEnv δ ι) (colw : Nat)
    (hget : ∀ d, (env.get_offset d).1 ≤ 0) :
    ∀ (fuel : Nat) (st : DumpState δ ι), completion_invariant st →
      completion_invariant (dump_run opts env colw fuel st) := by
  intro fuel
  induction fuel with
  | zero => exact fun st h => h
  | succ n ih =>
    intro st h
    exact ih _ (dump_step_completion opts env colw st hget h)

/-- C2: whenever a dump run completes within its fuel, the engine's final
code is 0 exactly when the run ended through the decoder's end-of-stream
branch (per-packet recoverable errors that were followed by successful
resynchronization leave no trace in it), and `main`'s exit status is the
negation of that code.  The hypothesis is the decoder's offset-query
contract: `pt_pkt_get_offset` returns zero on success, negative on
failure. -/
theorem dump_zero_iff_eos {δ ι : Type} (opts : ptdump_options)
    (env : DumpEnv δ ι) (d0 : δ) (size fuel : Nat)
    (hget : ∀ d, (env.get_offset d).1 ≤ 0) (fin : DumpState δ ι)
    (hfin : dump opts env d0 size fuel = some fin) :
    (fin.errcode = 0 ↔ fin.eosReached = true) ∧
      dump_exit_status opts env d0 size fuel = some (-fin.errcode) := by
  have hinv0 : completion_invariant (init_state env d0 : DumpState δ ι) := by
    constructor
    · intro hd
      simp [init_state] at hd
    · intro _
      rfl
  have hinv := dump_run_completion opts env (col_offset_width opts size)
    hget fuel (init_state env d0) hinv0
  unfold dump at hfin
  by_cases hdone : (dump_run opts env (col_offset_width opts size) fuel
      (init_state env d0)).phase = .done
  · simp only [hdone, if_pos] at hfin
    rw [Option.some_inj] at hfin
    subst hfin
    refine ⟨hinv.1 hdone, ?_⟩
    unfold dump_exit_status dump
    simp [hdone]
  · simp [hdone] at hfin

/-- Witness for C2 on `env_eos`: the run completes cleanly via
end-of-stream with code 0 and exit status 0. -/
theorem dump_zero_iff_eos_witness :
    (∀ d, (env_eos.get_offset d).1 ≤ 0) ∧
      dump main_default_options env_eos 0 8 2 = some
        { phase := .done, dec := 0, last_ip := 0, errcode := 0,
          c := { out := "", err := [], k := 0 },
          wOff := 0, wType := 0, wPayl := 0, eosReached := true } ∧
      (((0 : Int) = 0 ↔ true = true) ∧
        dump_exit_status main_default_options env_eos 0 8 2 =
          some (-(0 : Int))) := by
  refine ⟨fun d => le_refl 0, rfl, ?_⟩
  exact dump_zero_iff_eos main_default_options env_eos 0 8 2
    (fun d => le_refl 0) _ rfl

theorem print_quiet (opts : ptdump_options) (wok : Nat → Bool) (c : Console)
    (s : String) (hq : opts.flags &&& ptd_quiet ≠ 0) :
    print opts wok c s = (0, c) := by
  simp [print, hq]

theorem print_col_separator_quiet (opts : ptdump_options) (wok : Nat → Bool)
    (c : Console) (hq : opts.flags &&& ptd_quiet ≠ 0) :
    print_col_separator opts wok c = c := by
  simp [print_col_separator, print_quiet _ _ _ _ hq]

theorem fillup_column_quiet (opts : ptdump_options) (wok : Nat → Bool)
    (c : Console) (a w : Nat) (hq : opts.flags &&& ptd_quiet ≠ 0) :
    fillup_column opts wok c a w = c := by
  unfold fillup_column
  split
  · rfl
  · simp [print_quiet _ _ _ _ hq]

theorem foldl_fixed {α β : Type} (f : α → β → α) (l : List β)
    (h : ∀ x y, f x y = x) : ∀ a : α, l.foldl f a = a := by
  induction l with
  | nil => intro a; rfl
  | cons x xs ih => intro a; simp [h, ih]

theorem render_raw_quiet {δ ι : Type} (opts : ptdump_options)
    (env : DumpEnv δ ι) (d : δ) (c : Console) (wT wP n : Nat)
    (hq : opts.flags &&& ptd_quiet ≠ 0) :
    render_raw opts env d c wT wP n = c := by
  unfold render_raw render_raw_brackets render_raw_loop
  have hp : ∀ (cc : Console) (s : String),
      (print opts env.write_ok cc s).2 = cc := by
    intro cc s
    rw [print_quiet _ _ _ _ hq]
  have hl : ∀ cc : Console,
      List.foldl (render_raw_step opts env d n) cc (List.range n) = cc := by
    intro cc
    refine foldl_fixed _ _ (fun x y => ?_) cc
    unfold render_raw_step
    simp only [hp]
    split <;> rfl
  split
  · simp [hp, hl, print_col_separator_quiet _ _ _ hq,
      fillup_column_quiet _ _ _ _ _ hq]
  · rfl

theorem render_offset_quiet (opts : ptdump_options) (wok : Nat → Bool)
    (c : Console) (pos colw wOff : Nat)
    (hq : opts.flags &&& ptd_quiet ≠ 0) :
    render_offset opts wok c pos colw wOff =
      .inr (c, if opts.flags &&& ptd_show_offset ≠ 0 then 0 else wOff) := by
  unfold render_offset
  split
  · rename_i hs
    rw [print_quiet _ _ _ _ hq]
    simp [hs, toUnsigned, print_col_separator_quiet _ _ _ hq,
      fillup_column_quiet _ _ _ _ _ hq]
  · rename_i hs
    simp [hs]

set_option maxHeartbeats 1000000 in
theorem render_last_ip_out_quiet {δ ι : Type} (opts : ptdump_options)
    (env : DumpEnv δ ι) (c : Console) (ip : ι) (pkt : pt_packet)
    (pos w : Nat) (hq : opts.flags &&& ptd_quiet ≠ 0) :
    lip_out (render_last_ip opts env c ip pkt pos w) = c.out := by
  have hp : ∀ (cc : Console) (s : String),
      print opts env.write_ok cc s = (0, cc) :=
    fun cc s => print_quiet _ _ _ _ hq
  by_cases hf : opts.flags &&& ptd_show_last_ip ≠ 0
  case neg =>
    unfold render_last_ip
    rw [if_neg hf]
    rfl
  case pos =>
    obtain ⟨ty, sz, ipv⟩ := pkt
    unfold render_last_ip
    rw [if_pos hf]
    cases ty
    case ppt_pad => rfl
    case ppt_other n => rfl
    case ppt_tip =>
      simp only [hp]
      repeat' split
      all_goals simp [lip_out, diag_err_pos, diag_pos]
    case ppt_tip_pge =>
      simp only [hp]
      repeat' split
      all_goals simp [lip_out, diag_err_pos, diag_pos]
    case ppt_tip_pgd =>
      simp only [hp]
      repeat' split
      all_goals simp [lip_out, diag_err_pos, diag_pos]
    case ppt_fup =>
      simp only [hp]
      repeat' split
      all_goals simp [lip_out, diag_err_pos, diag_pos]

theorem render_rest_out_quiet {δ ι : Type} (opts : ptdump_options)
    (env : DumpEnv δ ι) (d : δ) (ip : ι) (pkt : pt_packet) (pos : Nat)
    (c0 : Console) (wOff : Nat) (hq : opts.flags &&& ptd_quiet ≠ 0) :
    rr_out (render_rest opts env d ip pkt pos c0 wOff) = c0.out := by
  have hp : ∀ (cc : Console) (s : String),
      print opts env.write_ok cc s = (0, cc) :=
    fun cc s => print_quiet _ _ _ _ hq
  have hlip := render_last_ip_out_quiet opts env c0 ip pkt pos
    (toUnsigned 0) hq
  unfold render_rest
  simp only [hp, print_col_separator_quiet _ _ _ hq,
    fillup_column_quiet _ _ _ _ _ hq, ite_self]
  norm_num
  split
  · simp [rr_out, diag_pos]
  · cases hr : render_last_ip opts env c0 ip pkt pos (toUnsigned 0) with
    | inl e =>
      rw [hr] at hlip
      simp only [lip_out] at hlip
      simp [rr_out, hlip]
    | inr r =>
      rw [hr] at hlip
      simp only [lip_out] at hlip
      simp [rr_out, render_raw_quiet _ _ _ _ _ _ _ hq, hp, hlip]

theorem render_packet_out_quiet {δ ι : Type} (opts : ptdump_options)
    (env : DumpEnv δ ι) (c0 : Console) (d : δ) (ip : ι) (pkt : pt_packet)
    (pos colw a b w : Nat) (hq : opts.flags &&& ptd_quiet ≠ 0) :
    rr_out (render_packet opts env c0 d ip pkt pos colw a b w) =
      c0.out := by
  unfold render_packet
  rw [render_offset_quiet _ _ _ _ _ _ hq]
  exact render_rest_out_quiet opts env d ip pkt pos c0 _ hq

theorem dump_step_out_quiet {δ ι : Type} (opts : ptdump_options)
    (env : DumpEnv δ ι) (colw : Nat) (st : DumpState δ ι)
    (hq : opts.flags &&& ptd_quiet ≠ 0) :
    (dump_step opts env colw st).c.out = st.c.out := by
  cases hp : st.phase with
  | done => simp [dump_step, hp]
  | sync =>
    simp only [dump_step, hp]
    split
    · split <;> simp [diag_err, diag_err_pos]
    · rfl
  | decode =>
    simp only [dump_step, hp]
    split
    · simp [diag_err]
    · split
      · rfl
      · split
        · simp [diag_err_pos]
        · split
          · simp [diag_pos]
          · split
            · rfl
            · have hro := render_packet_out_quiet opts env st.c
                (env.pkt_next st.dec).2.2 st.last_ip
                (env.pkt_next st.dec).2.1 (env.get_offset st.dec).2 colw
                st.wOff st.wType st.wPayl hq
              split <;> rename_i hr <;> rw [hr] at hro <;>
                simpa [rr_out] using hro

theorem dump_run_out_quiet {δ ι : Type} (opts : ptdump_options)
    (env : DumpEnv δ ι) (colw : Nat)
    (hq : opts.flags &&& ptd_quiet ≠ 0) :
    ∀ (fuel : Nat) (st : DumpState δ ι),
      (dump_run opts env colw fuel st).c.out = st.c.out := by
  intro fuel
  induction fuel with
  | zero => intro st; rfl
  | succ n ih =>
    intro st
    rw [dump_run, ih, dump_step_out_quiet opts env colw st hq]

/-- C9: in quiet mode the conditional `print` helper returns 0 and leaves
the console untouched, and consequently an entire dump run writes zero
bytes to stdout, for every environment, buffer and combination of the
other option flags. -/
theorem quiet_no_stdout {δ ι : Type} :
    (∀ (opts : ptdump_options) (wok : Nat → Bool) (c : Console)
        (s : String), opts.flags &&& ptd_quiet ≠ 0 →
        print opts wok c s = (0, c)) ∧
      (∀ (opts : ptdump_options) (env : DumpEnv δ ι) (d0 : δ)
        (size fuel : Nat) (fin : DumpState δ ι),
        opts.flags &&& ptd_quiet ≠ 0 →
        dump opts env d0 size fuel = some fin → fin.c.out = "") := by
  constructor
  · exact fun opts wok c s hq => print_quiet opts wok c s hq
  · intro opts env d0 size fuel fin hq hfin
    unfold dump at hfin
    by_cases hdone : (dump_run opts env (col_offset_width opts size) fuel
        (init_state env d0)).phase = .done
    · simp only [hdone, if_pos, Option.some_inj] at hfin
      subst hfin
      rw [dump_run_out_quiet opts env _ hq fuel (init_state env d0)]
      rfl
    · simp [hdone] at hfin

/-- Witness for C9: a quiet-mode print on a concrete console and a quiet
dump run over `env_eos`. -/
theorem quiet_no_stdout_witness :
    print { flags := ptd_quiet, cpu := { raw := 0 } } (fun _ => true)
        { out := "", err := [], k := 0 } "hello" =
      (0, { out := "", err := [], k := 0 }) ∧
      ({ phase := .done, dec := 0, last_ip := 0, errcode := 0,
          c := { out := "", err := [], k := 0 }, wOff := 0, wType := 0,
          wPayl := 0, eosReached := true } : DumpState Nat Nat).c.out
        = "" := by
  constructor
  · exact (quiet_no_stdout (δ := Nat) (ι := Nat)).1
      { flags := ptd_quiet, cpu := { raw := 0 } } (fun _ => true)
      { out := "", err := [], k := 0 } "hello" (by decide)
  · exact (quiet_no_stdout (δ := Nat) (ι := Nat)).2
      { flags := ptd_quiet, cpu := { raw := 0 } } env_eos 0 8 2
      { phase := .done, dec := 0, last_ip := 0, errcode := 0,
        c := { out := "", err := [], k := 0 }, wOff := 0, wType := 0,
        wPayl := 0, eosReached := true } (by decide) rfl

theorem string_pos_of_ne_empty (s : String) (h : s ≠ "") :
    0 < s.length := by
  rcases Nat.eq_zero_or_pos s.length with h0 | h1
  · exfalso
    apply h
    apply String.ext
    have : s.data.length = 0 := h0
    simpa using List.length_eq_zero.mp this
  · exact h1

theorem print_ok (opts : ptdump_options) (wok : Nat → Bool) (c : Console)
    (s : String) (hq : opts.flags &&& ptd_quiet = 0) (hw : wok c.k = true)
    (hs : s ≠ "") :
    print opts wok c s =
      ((s.length : Int), { c with out := c.out ++ s, k := c.k + 1 }) := by
  have hpos := string_pos_of_ne_empty s hs
  unfold print
  rw [if_neg (by simp [hq])]
  rw [if_neg (by simp [hw]; omega)]
  simp [hw]

theorem zeroPad_length (w : Nat) (s : String) :
    (zeroPad w s).length = max w s.length := by
  unfold zeroPad
  rw [String.length_append, String.length_mk, List.length_replicate]
  omega

theorem hexDigitsCore_eq_digits :
    ∀ (f n : Nat) (acc : List Char), 1 ≤ n → n < 16 ^ (f + 1) →
      hexDigitsCore (f + 1) n acc =
        ((Nat.digits 16 n).map hexDigitChar).reverse ++ acc := by
  intro f
  induction f with
  | zero =>
    intro n acc h1 h2
    unfold hexDigitsCore
    rw [if_pos (by omega)]
    rw [Nat.digits_of_lt 16 n (by omega) (by omega)]
    simp
  | succ f ih =>
    intro n acc h1 h2
    unfold hexDigitsCore
    by_cases hlt : n < 16
    · rw [if_pos hlt]
      rw [Nat.digits_of_lt 16 n (by omega) hlt]
      simp
    · rw [if_neg hlt]
      have hdiv1 : 1 ≤ n / 16 := Nat.one_le_div_iff (by norm_num) |>.mpr
        (by omega)
      have hdiv2 : n / 16 < 16 ^ (f + 1) := by
        rw [Nat.div_lt_iff_lt_mul (by norm_num : 0 < 16)]
        calc n < 16 ^ (f + 1 + 1) := h2
        _ = 16 ^ (f + 1) * 16 := by ring
      rw [ih (n / 16) (hexDigitChar (n % 16) :: acc) hdiv1 hdiv2]
      rw [Nat.digits_def' (by norm_num : (1:Nat) < 16) (by omega : 0 < n)]
      simp

theorem hexStr_length_le (n k : Nat) (hk : 1 ≤ k) (h : n < 16 ^ k) :
    (hexStr n).length ≤ k := by
  rcases Nat.eq_zero_or_pos n with h0 | h1
  · subst h0
    simpa [hexStr, hexDigitsCore] using hk
  · obtain ⟨m, rfl⟩ : ∃ m, n = m + 1 := ⟨n - 1, by omega⟩
    have hfuel : m + 1 < 16 ^ (m + 1 + 1) := by
      calc m + 1 < 16 ^ (m + 1) := Nat.lt_pow_self (by norm_num) (m + 1)
      _ ≤ 16 ^ (m + 1 + 1) := Nat.pow_le_pow_right (by norm_num) (by omega)
    unfold hexStr
    rw [hexDigitsCore_eq_digits (m + 1) (m + 1) [] (by omega) hfuel]
    rw [String.length_mk]
    simp only [List.append_nil, List.length_reverse, List.length_map]
    rw [Nat.digits_len 16 (m + 1) (by norm_num) (by omega)]
    have : Nat.log 16 (m + 1) < k :=
      Nat.log_lt_of_lt_pow (by omega) h
    omega

theorem raw_group_length {δ ι : Type} (env : DumpEnv δ ι) (d : δ)
    (i : Nat) : (raw_group env d i).length = 2 := by
  unfold raw_group
  rw [zeroPad_length]
  have h256 : env.get_pos d i % 256 < 16 ^ 2 := by
    have := Nat.mod_lt (env.get_pos d i) (show 0 < 256 by norm_num)
    omega
  have := hexStr_length_le (env.get_pos d i % 256) 2 (by omega) h256
  omega

theorem string_ne_empty_of_length_pos (s : String) (h : 0 < s.length) :
    s ≠ "" := by
  intro he
  subst he
  simp at h

theorem glue_sp_append (l : List String) (x : String) :
    glue_sp (l ++ [x]) = glue_sp l ++ (x ++ " ") := by
  induction l with
  | nil => simp [glue_sp]
  | cons s ss ih =>
    simp only [List.cons_append, glue_sp, List.append_eq, ih,
      String.append_assoc]

theorem sep_joined_append (l : List String) (x : String) :
    sep_joined (l ++ [x]) = glue_sp l ++ x := by
  induction l with
  | nil => simp [sep_joined, glue_sp]
  | cons s ss ih =>
    cases ss with
    | nil => simp [sep_joined, glue_sp, String.append_assoc]
    | cons t ts =>
      simp only [List.cons_append, List.append_eq, sep_joined, glue_sp]
        at ih ⊢
      rw [ih]
      simp [String.append_assoc]

theorem raw_group_ne_empty {δ ι : Type} (env : DumpEnv δ ι) (d : δ)
    (i : Nat) : zeroPad 2 (hexStr (env.get_pos d i % 256)) ≠ "" := by
  apply string_ne_empty_of_length_pos
  have := raw_group_length env d i
  unfold raw_group at this
  omega

theorem render_raw_step_mid {δ ι : Type} (opts : ptdump_options)
    (env : DumpEnv δ ι) (d : δ) (size : Nat) (c : Console) (idx : Nat)
    (hq : opts.flags &&& ptd_quiet = 0)
    (hw : ∀ i, env.write_ok i = true) (hidx : idx ≠ size - 1) :
    render_raw_step opts env d size c idx =
      { c with
        out := c.out ++ (raw_group env d idx ++ " "), k := c.k + 2 } := by
  simp only [render_raw_step]
  rw [print_ok _ _ _ _ hq (hw _) (raw_group_ne_empty env d idx)]
  rw [if_pos hidx]
  rw [print_ok _ _ _ _ hq (hw _) (by decide : (" " : String) ≠ "")]
  simp [raw_group, String.append_assoc]

theorem render_raw_step_last {δ ι : Type} (opts : ptdump_options)
    (env : DumpEnv δ ι) (d : δ) (size : Nat) (c : Console) (idx : Nat)
    (hq : opts.flags &&& ptd_quiet = 0)
    (hw : ∀ i, env.write_ok i = true) (hidx : ¬ idx ≠ size - 1) :
    render_raw_step opts env d size c idx =
      { c with out := c.out ++ raw_group env d idx, k := c.k + 1 } := by
  simp only [render_raw_step]
  rw [print_ok _ _ _ _ hq (hw _) (raw_group_ne_empty env d idx)]
  rw [if_neg hidx]
  simp [raw_group]

theorem render_raw_loop_front {δ ι : Type} (opts : ptdump_options)
    (env : DumpEnv δ ι) (d : δ) (n : Nat)
    (hq : opts.flags &&& ptd_quiet = 0)
    (hw : ∀ i, env.write_ok i = true) :
    ∀ m, m ≤ n - 1 → ∀ c : Console,
      List.foldl (render_raw_step opts env d n) c (List.range m) =
      { c with
        out := c.out ++ glue_sp ((List.range m).map (raw_group env d)),
        k := c.k + 2 * m } := by
  intro m
  induction m with
  | zero =>
    intro _ c
    simp [glue_sp]
  | succ m ih =>
    intro hm c
    rw [List.range_succ, List.foldl_append]
    rw [ih (by omega) c]
    simp only [List.foldl_cons, List.foldl_nil]
    rw [render_raw_step_mid opts env d n _ m hq hw (by omega)]
    rw [List.map_append, List.map_cons, List.map_nil, glue_sp_append]
    simp [String.append_assoc, Nat.mul_succ]
    omega

/-- C7: with writes succeeding and quiet mode off, the bracketed raw-byte
dump for a packet of size `n ≥ 1` (a `uint8_t`, so `n ≤ 255`) appends to
stdout exactly one `[`, then the `n` two-digit lowercase hex groups of the
packet bytes in order joined by single spaces (no trailing space), then one
`]`; every group has exactly two characters. -/
theorem raw_bytes_format {δ ι : Type} (opts : ptdump_options)
    (env : DumpEnv δ ι) (d : δ) (c : Console) (n : Nat)
    (hq : opts.flags &&& ptd_quiet = 0)
    (hw : ∀ i, env.write_ok i = true) (hn : 1 ≤ n) (hn255 : n ≤ 255) :
    (render_raw_brackets opts env d n c).out =
      c.out ++ "[" ++
        sep_joined ((List.range n).map (raw_group env d)) ++ "]" ∧
      ((List.range n).map (raw_group env d)).length = n ∧
      (∀ s ∈ (List.range n).map (raw_group env d), s.length = 2) := by
  refine ⟨?_, by simp, ?_⟩
  · simp only [render_raw_brackets, render_raw_loop]
    obtain ⟨m, rfl⟩ : ∃ m, n = m + 1 := ⟨n - 1, by omega⟩
    rw [print_ok _ _ _ _ hq (hw _) (by decide : ("[" : String) ≠ "")]
    rw [List.range_succ, List.foldl_append]
    rw [render_raw_loop_front opts env d (m + 1) hq hw m (by omega)]
    simp only [List.foldl_cons, List.foldl_nil]
    rw [render_raw_step_last opts env d (m + 1) _ m hq hw (by omega)]
    rw [print_ok _ _ _ _ hq (hw _) (by decide : ("]" : String) ≠ "")]
    rw [List.map_append, List.map_cons, List.map_nil, sep_joined_append]
    simp [String.append_assoc]
  · intro s hs
    rw [List.mem_map] at hs
    obtain ⟨i, _, rfl⟩ := hs
    exact raw_group_length env d i

/-- Witness for C7 on a concrete two-byte environment. -/
theorem raw_bytes_format_witness :
    (render_raw_brackets main_default_options env_eos 0 2
        { out := "", err := [], k := 0 }).out =
      "" ++ "[" ++
        sep_joined ((List.range 2).map (raw_group env_eos 0)) ++ "]" ∧
      ((List.range 2).map (raw_group env_eos 0)).length = 2 ∧
      (∀ s ∈ (List.range 2).map (raw_group env_eos 0), s.length = 2) := by
  exact raw_bytes_format main_default_options env_eos 0
    { out := "", err := [], k := 0 } 2 (by decide) (fun i => rfl)
    (by decide) (by decide)

theorem print_fail (opts : ptdump_options) (wok : Nat → Bool) (c : Console)
    (s : String) (hq : opts.flags &&& ptd_quiet = 0)
    (hw : wok c.k = false) :
    print opts wok c s = (-pte_internal, { c with k := c.k + 1 }) := by
  unfold print
  rw [if_neg (by simp [hq])]
  simp [hw]

theorem hex16_length (q : Nat) (h : q < 2 ^ 64) :
    (zeroPad 16 (hexStr q)).length = 16 := by
  rw [zeroPad_length]
  have h16 : q < 16 ^ 16 := by
    have : (16 : Nat) ^ 16 = 2 ^ 64 := by norm_num
    omega
  have := hexStr_length_le q 16 (by omega) h16
  omega

theorem render_last_ip_addr_agnostic {δ ι : Type} (opts : ptdump_options)
    (env : DumpEnv δ ι) (c : Console) (ip : ι) (ty : pt_packet_type)
    (sz ipv pos w : Nat)
    (hty : ty = .ppt_tip ∨ ty = .ppt_tip_pge ∨ ty = .ppt_tip_pgd ∨
      ty = .ppt_fup) :
    render_last_ip opts env c ip { type := ty, size := sz, ip := ipv }
        pos w =
      render_last_ip opts env c ip
        { type := .ppt_tip, size := sz, ip := ipv } pos w := by
  rcases hty with rfl | rfl | rfl | rfl <;> rfl

theorem render_last_ip_tip_inr {δ ι : Type} (opts : ptdump_options)
    (env : DumpEnv δ ι) (c : Console) (ip : ι) (sz ipv pos w : Nat)
    (r : Console × ι × Nat)
    (hq64 : ∀ j : ι, (env.ip_query j).2 < 2 ^ 64)
    (h : render_last_ip opts env c ip
        { type := .ppt_tip, size := sz, ip := ipv } pos w = .inr r) :
    r.1.out = c.out ∨
      r.1.out = c.out ++ ", ip=<suppressed>" ∨
      ∃ q : Nat, r.1.out = c.out ++ (", ip=0x" ++ zeroPad 16 (hexStr q)) ∧
        (zeroPad 16 (hexStr q)).length = 16 := by
  unfold render_last_ip at h
  dsimp only at h
  by_cases hf : opts.flags &&& ptd_show_last_ip ≠ 0
  case neg =>
    rw [if_neg hf] at h
    have hr := Sum.inr.inj h
    subst hr
    exact Or.inl rfl
  case pos =>
    rw [if_pos hf] at h
    by_cases hu1 : (env.ip_update ip ipv).1 = -pte_invalid
    · rw [if_pos hu1] at h
      exact absurd h (by simp)
    · rw [if_neg hu1] at h
      by_cases hu2 : (env.ip_update ip ipv).1 = -pte_bad_packet
      · rw [if_pos hu2] at h
        exact absurd h (by simp)
      · rw [if_neg hu2] at h
        by_cases hu3 : (env.ip_update ip ipv).1 = -pte_noip
        · rw [if_pos hu3] at h
          have hr := Sum.inr.inj h
          subst hr
          exact Or.inl rfl
        · rw [if_neg hu3] at h
          by_cases hq1 : (env.ip_query (env.ip_update ip ipv).2).1 =
              -pte_invalid
          · rw [if_pos hq1] at h
            exact absurd h (by simp)
          · rw [if_neg hq1] at h
            by_cases hq2 : (env.ip_query (env.ip_update ip ipv).2).1 =
                -pte_noip
            · rw [if_pos hq2] at h
              have hr := Sum.inr.inj h
              subst hr
              exact Or.inl rfl
            · rw [if_neg hq2] at h
              by_cases hquiet : opts.flags &&& ptd_quiet ≠ 0
              · simp only [print_quiet _ _ _ _ hquiet] at h
                by_cases hq3 : (env.ip_query (env.ip_update ip ipv).2).1 =
                    -pte_ip_suppressed
                · rw [if_pos hq3] at h
                  rw [if_neg (show ¬ (((0 : Int), c).1 < 0) by norm_num)]
                    at h
                  have hr := Sum.inr.inj h
                  subst hr
                  exact Or.inl rfl
                · rw [if_neg hq3] at h
                  by_cases hq4 : (env.ip_query
                      (env.ip_update ip ipv).2).1 = 0
                  · rw [if_pos hq4] at h
                    rw [if_neg (show ¬ (((0 : Int), c).1 < 0) by norm_num)]
                      at h
                    have hr := Sum.inr.inj h
                    subst hr
                    exact Or.inl rfl
                  · rw [if_neg hq4] at h
                    by_cases hq5 : (env.ip_query
                        (env.ip_update ip ipv).2).1 < 0
                    · rw [if_pos (show (((env.ip_query
                        (env.ip_update ip ipv).2).1, c)).1 < 0 from hq5)]
                        at h
                      exact absurd h (by simp)
                    · rw [if_neg (show ¬ ((((env.ip_query
                        (env.ip_update ip ipv).2).1, c)).1 < 0) from hq5)]
                        at h
                      have hr := Sum.inr.inj h
                      subst hr
                      exact Or.inl rfl
              · have hq0 : opts.flags &&& ptd_quiet = 0 := by
                  simpa using hquiet
                by_cases hq3 : (env.ip_query (env.ip_update ip ipv).2).1 =
                    -pte_ip_suppressed
                · rw [if_pos hq3] at h
                  by_cases hwk : env.write_ok c.k
                  · rw [print_ok _ _ _ _ hq0 hwk (by decide)] at h
                    rw [if_neg (by decide :
                      ¬ ((", ip=<suppressed>".length : Int) < 0))] at h
                    have hr := Sum.inr.inj h
                    subst hr
                    exact Or.inr (Or.inl rfl)
                  · rw [print_fail _ _ _ _ hq0
                      (by simpa using hwk)] at h
                    rw [if_pos (by decide : (-pte_internal : Int) < 0)] at h
                    exact absurd h (by simp)
                · rw [if_neg hq3] at h
                  by_cases hq4 : (env.ip_query (env.ip_update ip ipv).2).1 =
                      0
                  · rw [if_pos hq4] at h
                    by_cases hwk : env.write_ok c.k
                    · rw [print_ok _ _ _ _ hq0 hwk (by
                        apply string_ne_empty_of_length_pos
                        rw [String.length_append]
                        have := hex16_length
                          (env.ip_query (env.ip_update ip ipv).2).2
                          (hq64 _)
                        omega)] at h
                      rw [if_neg (by
                        have : 0 ≤ ((", ip=0x" ++ zeroPad 16 (hexStr
                          (env.ip_query
                            (env.ip_update ip ipv).2).2)).length : Int) :=
                          Int.natCast_nonneg _
                        omega)] at h
                      have hr := Sum.inr.inj h
                      subst hr
                      refine Or.inr (Or.inr ⟨(env.ip_query
                        (env.ip_update ip ipv).2).2, rfl, ?_⟩)
                      exact hex16_length _ (hq64 _)
                    · rw [print_fail _ _ _ _ hq0
                        (by simpa using hwk)] at h
                      rw [if_pos (by decide :
                        (-pte_internal : Int) < 0)] at h
                      exact absurd h (by simp)
                  · rw [if_neg hq4] at h
                    by_cases hq5 : (env.ip_query
                        (env.ip_update ip ipv).2).1 < 0
                    · rw [if_pos hq5] at h
                      exact absurd h (by simp)
                    · rw [if_neg hq5] at h
                      have hr := Sum.inr.inj h
                      subst hr
                      exact Or.inl rfl

/-- C8: last-IP enrichment text is emitted only for the four
address-carrying packet types — for every other type the enrichment block
leaves console, tracker and used width untouched even when enabled — and
whenever the block completes normally having emitted text, that text is
exactly `, ip=<suppressed>` or exactly `, ip=0x` followed by 16 lowercase
zero-padded hex digits of the resolved address, appended directly after
the payload text with no separator.  (The address bound is the
`uint64_t` contract of the external resolver.) -/
theorem last_ip_enrichment_format {δ ι : Type} :
    (∀ (opts : ptdump_options) (env : DumpEnv δ ι) (c : Console) (ip : ι)
        (pkt : pt_packet) (pos w : Nat),
        pkt.type ≠ .ppt_tip → pkt.type ≠ .ppt_tip_pge →
        pkt.type ≠ .ppt_tip_pgd → pkt.type ≠ .ppt_fup →
        render_last_ip opts env c ip pkt pos w = .inr (c, ip, w)) ∧
      (∀ (opts : ptdump_options) (env : DumpEnv δ ι) (c : Console)
        (ip : ι) (pkt : pt_packet) (pos w : Nat) (r : Console × ι × Nat),
        (∀ j : ι, (env.ip_query j).2 < 2 ^ 64) →
        render_last_ip opts env c ip pkt pos w = .inr r →
        r.1.out ≠ c.out →
        (pkt.type = .ppt_tip ∨ pkt.type = .ppt_tip_pge ∨
          pkt.type = .ppt_tip_pgd ∨ pkt.type = .ppt_fup) ∧
          (r.1.out = c.out ++ ", ip=<suppressed>" ∨
            ∃ q : Nat,
              r.1.out = c.out ++ (", ip=0x" ++ zeroPad 16 (hexStr q)) ∧
                (zeroPad 16 (hexStr q)).length = 16)) := by
  constructor
  · intro opts env c ip pkt pos w h1 h2 h3 h4
    obtain ⟨ty, sz, ipv⟩ := pkt
    unfold render_last_ip
    by_cases hf : opts.flags &&& ptd_show_last_ip ≠ 0
    · rw [if_pos hf]
      cases ty with
      | ppt_tip => exact absurd rfl h1
      | ppt_tip_pge => exact absurd rfl h2
      | ppt_tip_pgd => exact absurd rfl h3
      | ppt_fup => exact absurd rfl h4
      | ppt_pad => rfl
      | ppt_other n => rfl
    · rw [if_neg hf]
  · intro opts env c ip pkt pos w r hq64 h hne
    obtain ⟨ty, sz, ipv⟩ := pkt
    by_cases hty : ty = .ppt_tip ∨ ty = .ppt_tip_pge ∨
        ty = .ppt_tip_pgd ∨ ty = .ppt_fup
    · refine ⟨hty, ?_⟩
      rw [render_last_ip_addr_agnostic opts env c ip ty sz ipv pos w hty]
        at h
      rcases render_last_ip_tip_inr opts env c ip sz ipv pos w r hq64 h
        with h0 | h1 | h2
      · exact absurd h0 hne
      · exact Or.inl h1
      · exact Or.inr h2
    · exfalso
      apply hne
      push_neg at hty
      obtain ⟨n1, n2, n3, n4⟩ := hty
      have hskip : render_last_ip opts env c ip
          { type := ty, size := sz, ip := ipv } pos w = .inr (c, ip, w) := by
        unfold render_last_ip
        by_cases hf : opts.flags &&& ptd_show_last_ip ≠ 0
        · rw [if_pos hf]
          cases ty with
          | ppt_tip => exact absurd rfl n1
          | ppt_tip_pge => exact absurd rfl n2
          | ppt_tip_pgd => exact absurd rfl n3
          | ppt_fup => exact absurd rfl n4
          | ppt_pad => rfl
          | ppt_other n => rfl
        · rw [if_neg hf]
      rw [hskip] at h
      have hr := Sum.inr.inj h
      subst hr
      rfl

/-- Witness for C8 at a concrete non-address packet and a concrete
suppressed-address outcome. -/
theorem last_ip_enrichment_format_witness :
    render_last_ip main_default_options env_eos
        { out := "", err := [], k := 0 } (0 : Nat)
        { type := .ppt_pad, size := 1, ip := 0 } 0 0 =
      .inr ({ out := "", err := [], k := 0 }, 0, 0) := by
  exact (last_ip_enrichment_format (δ := Nat) (ι := Nat)).1
    main_default_options env_eos { out := "", err := [], k := 0 } 0
    { type := .ppt_pad, size := 1, ip := 0 } 0 0
    (by decide) (by decide) (by decide) (by decide)

/-- C5 (amended): each used-width variable is assigned before every read
within one packet's rendering, so the rendering outcome — console, tracker
state, resulting packet-type/payload used widths, and any resync error —
is the same whatever stale used-width values are carried in from earlier
packets. -/
theorem render_independent_of_stale_widths {δ ι : Type}
    (opts : ptdump_options) (env : DumpEnv δ ι) (c : Console) (d : δ)
    (ip : ι) (pkt : pt_packet) (pos colw : Nat)
    (a b w a' b' w' : Nat) :
    rr_obs (render_packet opts env c d ip pkt pos colw a b w) =
      rr_obs (render_packet opts env c d ip pkt pos colw a' b' w') := by
  have hrest : ∀ (x y : Nat),
      rr_obs (render_rest opts env d ip pkt pos c x) =
        rr_obs (render_rest opts env d ip pkt pos c y) := by
    intro x y
    simp only [render_rest]
    repeat' split
    all_goals rfl
  unfold render_packet
  by_cases hs : opts.flags &&& ptd_show_offset ≠ 0
  · have hoff : render_offset opts env.write_ok c pos colw a =
        render_offset opts env.write_ok c pos colw a' := by
      unfold render_offset
      rw [if_pos hs, if_pos hs]
    rw [hoff]
  · unfold render_offset
    rw [if_neg hs, if_neg hs]
    exact hrest a a'

/-- C5 (counterexample to the claim as stated): after rendering the first
packet, the engine enters the next packet's rendering with used-width
values that are not all zero (the payload print of an empty payload left
`col_payload_width_used = 2^32 - 1` and the type column left 3), and that
next rendering does take place. -/
theorem used_widths_not_reset_cex :
    (dump_run opts_plain env_two 1 2 (init_state env_two 0)).phase
        = .decode ∧
      ¬ ((dump_run opts_plain env_two 1 2
            (init_state env_two 0)).wOff = 0 ∧
         (dump_run opts_plain env_two 1 2
            (init_state env_two 0)).wType = 0 ∧
         (dump_run opts_plain env_two 1 2
            (init_state env_two 0)).wPayl = 0) ∧
      (dump_run opts_plain env_two 1 3 (init_state env_two 0)).phase
        = .decode := by
  decide

theorem print_empty (opts : ptdump_options) (wok : Nat → Bool)
    (c : Console) (hq : opts.flags &&& ptd_quiet = 0) :
    print opts wok c "" = (-pte_internal, { c with k := c.k + 1 }) := by
  unfold print
  rw [if_neg (by simp [hq])]
  by_cases hw : wok c.k <;> simp [hw]

set_option maxRecDepth 100000 in
/-- C1 (counterexample to the claim as stated): in a concrete decoding
state where the payload print, every raw-bytes print and the terminating
newline all fail (the write oracle succeeds only for the packet-type
column), the engine does not transition back to synchronization and
carries no error: the step stays in the decoding phase with `errcode = 0`,
having emitted only the packet-type text. -/
theorem write_failure_policy_cex :
    env_rawfail.write_ok 1 = false ∧
      (dump_step opts_raw env_rawfail 1
        { phase := .decode, dec := 0, last_ip := 0, errcode := 0,
          c := { out := "", err := [], k := 0 },
          wOff := 0, wType := 0, wPayl := 0,
          eosReached := false }).phase = .decode ∧
      (dump_step opts_raw env_rawfail 1
        { phase := .decode, dec := 0, last_ip := 0, errcode := 0,
          c := { out := "", err := [], k := 0 },
          wOff := 0, wType := 0, wPayl := 0,
          eosReached := false }).errcode = 0 ∧
      (dump_step opts_raw env_rawfail 1
        { phase := .decode, dec := 0, last_ip := 0, errcode := 0,
          c := { out := "", err := [], k := 0 },
          wOff := 0, wType := 0, wPayl := 0,
          eosReached := false }).c.out = "pkt" := by
  decide

theorem render_packet_no_offset {δ ι : Type} (opts : ptdump_options)
    (env : DumpEnv δ ι) (c : Console) (d : δ) (ip : ι) (pkt : pt_packet)
    (pos colw a b w : Nat) (hso : opts.flags &&& ptd_show_offset = 0) :
    render_packet opts env c d ip pkt pos colw a b w =
      render_rest opts env d ip pkt pos c a := by
  unfold render_packet render_offset
  rw [if_neg (by simp [hso])]

/-- C1 (amended): a negative result from the print helper at the offset
column, the packet-type column, or the last-IP enrichment is reported as an
internal error at the packet's offset and causes a transition back to
synchronization; the print results of the payload column, the raw-bytes
column and the terminating newline are not checked, so a write failure
there leaves the rendering to continue (part 4 exhibits this: the payload
print fails and the newline write fails, yet the outcome is a completed
rendering).  Part 5: any resync outcome of the renderer moves the engine
to the synchronizing phase carrying the error code and console. -/
theorem write_failure_policy {δ ι : Type} :
    (∀ (opts : ptdump_options) (env : DumpEnv δ ι) (c : Console) (d : δ)
      (ip : ι) (pkt : pt_packet) (pos colw a b w : Nat),
      opts.flags &&& ptd_quiet = 0 →
      opts.flags &&& ptd_show_offset ≠ 0 →
      env.write_ok c.k = false →
      render_packet opts env c d ip pkt pos colw a b w =
        .resync (-pte_internal)
          (diag_pos "cannot print offset" pos { c with k := c.k + 1 })) ∧
    (∀ (opts : ptdump_options) (env : DumpEnv δ ι) (c : Console) (d : δ)
      (ip : ι) (pkt : pt_packet) (pos colw a b w : Nat),
      opts.flags &&& ptd_quiet = 0 →
      opts.flags &&& ptd_show_offset = 0 →
      env.write_ok c.k = false →
      render_packet opts env c d ip pkt pos colw a b w =
        .resync (-pte_internal)
          (diag_pos "cannot print packet type" pos
            { c with k := c.k + 1 })) ∧
    (∀ (opts : ptdump_options) (env : DumpEnv δ ι) (c : Console) (d : δ)
      (ip : ι) (pkt : pt_packet) (pos colw a b w : Nat) (ip2 : ι)
      (q : Nat),
      opts.flags &&& ptd_quiet = 0 →
      opts.flags &&& ptd_show_offset = 0 →
      opts.flags &&& ptd_show_last_ip ≠ 0 →
      env.write_ok c.k = true →
      env.packet_type_str pkt ≠ "" →
      env.fill_payload_str pkt = (0, "") →
      pkt.type = .ppt_tip →
      env.ip_update ip pkt.ip = (0, ip2) →
      env.ip_query ip2 = (0, q) →
      env.write_ok (c.k + 2) = false →
      render_packet opts env c d ip pkt pos colw a b w =
        .resync (-pte_internal)
          (diag_pos "cannot print last-IP" pos
            { c with
              out := c.out ++ env.packet_type_str pkt,
              k := c.k + 3 })) ∧
    (∀ (opts : ptdump_options) (env : DumpEnv δ ι) (c : Console) (d : δ)
      (ip : ι) (pkt : pt_packet) (pos colw a b w : Nat),
      opts.flags &&& ptd_quiet = 0 →
      opts.flags &&& ptd_show_offset = 0 →
      opts.flags &&& ptd_show_last_ip = 0 →
      opts.flags &&& ptd_show_raw_bytes = 0 →
      env.write_ok c.k = true →
      env.packet_type_str pkt ≠ "" →
      env.fill_payload_str pkt = (0, "") →
      env.write_ok (c.k + 2) = false →
      render_packet opts env c d ip pkt pos colw a b w =
        .ok { c with
              out := c.out ++ env.packet_type_str pkt,
              k := c.k + 3 }
          ip a (toUnsigned ((env.packet_type_str pkt).length : Int))
          (toUnsigned (-pte_internal))) ∧
    (∀ (opts : ptdump_options) (env : DumpEnv δ ι) (colw : Nat)
      (st : DumpState δ ι) (g : Int) (pos : Nat) (ret : Int)
      (pkt : pt_packet) (d : δ) (e : Int) (c' : Console),
      st.phase = .decode → env.get_offset st.dec = (g, pos) → 0 ≤ g →
      env.pkt_next st.dec = (ret, pkt, d) → 0 ≤ ret → pkt.size ≠ 0 →
      ¬ (pkt.type = .ppt_pad ∧ opts.flags &&& ptd_no_pad ≠ 0) →
      render_packet opts env st.c d st.last_ip pkt pos colw st.wOff
        st.wType st.wPayl = .resync e c' →
      (dump_step opts env colw st).phase = .sync ∧
        (dump_step opts env colw st).errcode = e ∧
        (dump_step opts env colw st).c = c') := by
  refine ⟨?_, ?_, ?_, ?_, ?_⟩
  · intro opts env c d ip pkt pos colw a b w hq hso hw
    unfold render_packet render_offset
    rw [if_pos hso, print_fail _ _ _ _ hq hw]
    simp [pte_internal]
  · intro opts env c d ip pkt pos colw a b w hq hso hw
    rw [render_packet_no_offset _ _ _ _ _ _ _ _ _ _ _ hso]
    unfold render_rest
    rw [print_fail _ _ _ _ hq hw]
    simp [pte_internal]
  · intro opts env c d ip pkt pos colw a b w ip2 q hq hso hsl hw0 hts hf
      hty hupd hqry hw2
    have hlip_gen : ∀ (cx : Console) (wx : Nat),
        env.write_ok cx.k = false →
        render_last_ip opts env cx ip pkt pos wx =
          .inl (-pte_internal, diag_pos "cannot print last-IP" pos
            { cx with k := cx.k + 1 }) := by
      intro cx wx hwx
      unfold render_last_ip
      rw [if_pos hsl, hty]
      dsimp only
      rw [hupd]
      dsimp only
      rw [if_neg (show ¬ ((0 : Int) = -pte_invalid) by
        norm_num [pte_invalid])]
      rw [if_neg (show ¬ ((0 : Int) = -pte_bad_packet) by
        norm_num [pte_bad_packet])]
      rw [if_neg (show ¬ ((0 : Int) = -pte_noip) by
        norm_num [pte_noip])]
      rw [hqry]
      dsimp only
      rw [if_neg (show ¬ ((0 : Int) = -pte_invalid) by
        norm_num [pte_invalid])]
      rw [if_neg (show ¬ ((0 : Int) = -pte_noip) by
        norm_num [pte_noip])]
      rw [if_neg (show ¬ ((0 : Int) = -pte_ip_suppressed) by
        norm_num [pte_ip_suppressed])]
      rw [if_pos (show (0 : Int) = 0 from rfl)]
      rw [print_fail _ _ _ _ hq hwx]
      rw [if_pos (show (-pte_internal : Int) < 0 by
        norm_num [pte_internal])]
    rw [render_packet_no_offset _ _ _ _ _ _ _ _ _ _ _ hso]
    unfold render_rest
    rw [print_ok _ _ _ _ hq hw0 hts]
    dsimp only
    rw [if_neg (show ¬ (((env.packet_type_str pkt).length : Int) < 0)
      from not_lt.mpr (Int.natCast_nonneg _))]
    rw [hf]
    dsimp only
    rw [if_neg (show ¬ ((0 : Int) < 0) by norm_num)]
    rw [if_neg (show ¬ ((0 : Int) < 0) by norm_num)]
    rw [print_empty _ _ _ hq]
    rw [hlip_gen _ _ hw2]
  · intro opts env c d ip pkt pos colw a b w hq hso hsl hsr hw0 hts hf hw2
    have hlip_skip : ∀ (cx : Console) (wx : Nat),
        render_last_ip opts env cx ip pkt pos wx = .inr (cx, ip, wx) := by
      intro cx wx
      unfold render_last_ip
      rw [if_neg (by simp [hsl])]
    have hraw_skip : ∀ (cx : Console) (wT wP n : Nat),
        render_raw opts env d cx wT wP n = cx := by
      intro cx wT wP n
      unfold render_raw
      rw [if_neg (by simp [hsr])]
    rw [render_packet_no_offset _ _ _ _ _ _ _ _ _ _ _ hso]
    unfold render_rest
    rw [print_ok _ _ _ _ hq hw0 hts]
    dsimp only
    rw [if_neg (show ¬ (((env.packet_type_str pkt).length : Int) < 0)
      from not_lt.mpr (Int.natCast_nonneg _))]
    rw [hf]
    dsimp only
    rw [if_neg (show ¬ ((0 : Int) < 0) by norm_num)]
    rw [if_neg (show ¬ ((0 : Int) < 0) by norm_num)]
    rw [print_empty _ _ _ hq]
    rw [hlip_skip]
    dsimp only
    rw [hraw_skip]
    rw [print_fail _ _ _ _ hq hw2]
  · intro opts env colw st g pos ret pkt d e c' hphase hg hgpos hn hret
      hsz hpad hr
    have h1 : ¬ g < 0 := not_lt.mpr hgpos
    have h2 : pt_errcode ret = pte_ok := by
      simp [pt_errcode, hret]
    have h3 : ¬ pt_errcode ret = pte_eos := by
      rw [h2]
      simp [pte_ok, pte_eos]
    simp [dump_step, hphase, hg, hn, h1, h2, h3, hsz, hpad, hr, pte_ok,
      pte_eos]

set_option maxRecDepth 100000 in
/-- Witness for the amended C1, each part at a concrete input. -/
theorem write_failure_policy_witness :
    (render_packet main_default_options env_rawfail
        { out := "", err := [], k := 1 } 0 0
        { type := .ppt_other 0, size := 2, ip := 0 } 0 1 0 0 0 =
      .resync (-pte_internal)
        (diag_pos "cannot print offset" 0
          { out := "", err := [], k := 2 })) ∧
    (render_packet opts_plain env_rawfail
        { out := "", err := [], k := 1 } 0 0
        { type := .ppt_other 0, size := 2, ip := 0 } 0 1 0 0 0 =
      .resync (-pte_internal)
        (diag_pos "cannot print packet type" 0
          { out := "", err := [], k := 2 })) ∧
    (render_packet opts_lastip env_rawfail
        { out := "", err := [], k := 0 } 0 0
        { type := .ppt_tip, size := 2, ip := 0 } 0 1 0 0 0 =
      .resync (-pte_internal)
        (diag_pos "cannot print last-IP" 0
          { out := "pkt", err := [], k := 3 })) ∧
    (render_packet opts_plain env_rawfail
        { out := "", err := [], k := 0 } 0 0
        { type := .ppt_other 0, size := 2, ip := 0 } 0 1 0 0 0 =
      .ok { out := "pkt", err := [], k := 3 } 0 0 3 4294967295) ∧
    ((dump_step opts_plain env_rawfail 1 st_k1).phase = .sync ∧
      (dump_step opts_plain env_rawfail 1 st_k1).errcode =
        -pte_internal ∧
      (dump_step opts_plain env_rawfail 1 st_k1).c =
        diag_pos "cannot print packet type" 0
          { out := "", err := [], k := 2 }) := by
  refine ⟨?_, ?_, ?_, ?_, ?_⟩
  · exact (write_failure_policy (δ := Nat) (ι := Nat)).1
      main_default_options env_rawfail { out := "", err := [], k := 1 }
      0 0 { type := .ppt_other 0, size := 2, ip := 0 } 0 1 0 0 0
      (by decide) (by decide) (by decide)
  · exact (write_failure_policy (δ := Nat) (ι := Nat)).2.1
      opts_plain env_rawfail { out := "", err := [], k := 1 }
      0 0 { type := .ppt_other 0, size := 2, ip := 0 } 0 1 0 0 0
      (by decide) (by decide) (by decide)
  · exact (write_failure_policy (δ := Nat) (ι := Nat)).2.2.1
      opts_lastip env_rawfail { out := "", err := [], k := 0 }
      0 0 { type := .ppt_tip, size := 2, ip := 0 } 0 1 0 0 0 0 0
      (by decide) (by decide) (by decide) rfl (by decide) rfl rfl rfl
      rfl rfl
  · exact (write_failure_policy (δ := Nat) (ι := Nat)).2.2.2.1
      opts_plain env_rawfail { out := "", err := [], k := 0 }
      0 0 { type := .ppt_other 0, size := 2, ip := 0 } 0 1 0 0 0
      (by decide) (by decide) (by decide) (by decide) rfl (by decide)
      rfl rfl
  · exact (write_failure_policy (δ := Nat) (ι := Nat)).2.2.2.2
      opts_plain env_rawfail 1 st_k1 0 0 0
      { type := .ppt_other 0, size := 2, ip := 0 } 1 (-pte_internal)
      (diag_pos "cannot print packet type" 0
        { out := "", err := [], k := 2 })
      rfl rfl (by decide) rfl (by decide) (by decide) (by decide)
      (by decide)

end Ptdump
